import Mathlib

/-!
Verification of the lazy query-builder core (`balsam/api/query.py`):
`Manager`, `Query`, and the bulk operations, shallowly embedded in Lean.

Modelling conventions:
* Python dicts with string keys and scalar values are association lists
  (`Dict`); field values are modelled as integers, since the claims only
  move values around and compare them.
* A Model instance (external contract: `construct`, `.dict()`, attribute
  access) is a class name together with its raw field mapping.
* Fallible Python code is `Except PyError`; an attribute lookup on an
  object that never gains that attribute is an `attributeError`.
* `Query.filter` / `exclude` / `order_by` RETURN (do not raise) an
  `AttributeError` object when their guard fires; that returned value is
  the `attrError` constructor of `FilterResult`, distinct from a raised
  error.
* The remote resource is a record of response functions; operations that
  reach it also log the payload of every remote call they issue, so
  "exactly one remote call carrying X" is the call log being `[X]`.
-/

namespace Balsam

/-- A Python dict from field names to (integer) values, as an association
list in insertion order. -/
abbrev Dict := List (String × Int)

/-- `d[k]` as an option: the value at the first (hence, for dicts built by
`update1`, the only) binding of `k`. -/
def Dict.get? : Dict → String → Option Int
  | [], _ => none
  | (k1, v1) :: rest, k => if k1 = k then some v1 else Dict.get? rest k

/-- `d[k] = v` on a dict: replace the binding in place when the key exists,
append it otherwise (CPython dict assignment order semantics). -/
def Dict.update1 : Dict → String → Int → Dict
  | [], k, v => [(k, v)]
  | (k1, v1) :: rest, k, v =>
    if k1 = k then (k, v) :: rest else (k1, v1) :: Dict.update1 rest k v

/-- `d.update(kwargs)`: fold the new bindings in, left to right; an existing
key keeps its position with the new value, a new key is appended. -/
def Dict.update (d : Dict) (kwargs : Dict) : Dict :=
  kwargs.foldl (fun acc kv => Dict.update1 acc kv.1 kv.2) d

/-- A Model instance (external Model contract): its class name and the raw
field mapping `instance.dict()` serializes to.  `Model.construct(**data)`
wraps a mapping back into an instance of that class. -/
structure Instance where
  cls : String
  data : Dict
deriving DecidableEq, Repr

/-- The Python errors the embedded code can raise.  `doesNotExist` and
`multipleObjectsReturned` stand for the Model-scoped error classes
`model_class.DoesNotExist` and `model_class.MultipleObjectsReturned(n)`. -/
inductive PyError where
  | typeError (msg : String)
  | attributeError (msg : String)
  | assertionError (msg : String)
  | indexError (msg : String)
  | keyError (key : String)
  | doesNotExist (model : String)
  | multipleObjectsReturned (n : Nat)
deriving DecidableEq, Repr

/-- The materialization strategy selector `_iterable_class`; the source
only ever assigns `ModelIterable`. -/
inductive IterableClass where
  | modelIterable
deriving DecidableEq, Repr

/-- The state of a `Query`, one field per attribute `Query.__init__`
assigns: `model_class`, `_result_cache`, `_filters`, `_excludes`,
`_order_fields`, `_iterable_class`, `_count` (as `countCache`), `_limit`,
`_offset`.  No other attribute is ever assigned on a `Query`; in
particular a `Query` never has a `_resource` attribute. -/
structure Query where
  model_class : Option String
  result_cache : Option (List Instance)
  filters : Dict
  excludes : Dict
  order_fields : List String
  iterable_class : IterableClass
  countCache : Option Nat
  limit : Option Int
  offset : Option Int
deriving DecidableEq, Repr

/-- `Query.__init__(self, model_class=None)`: every cache empty, every
constraint absent. -/
def Query.make (model_class : Option String) : Query :=
  { model_class := model_class
    result_cache := none
    filters := []
    excludes := []
    order_fields := []
    iterable_class := .modelIterable
    countCache := none
    limit := none
    offset := none }

/-- `Query.is_sliced`, exactly as the source computes it:
`self._limit is None or self._offset is None`.  (Note: this is the
negation of the spec's notion of a sliced query.) -/
def Query.is_sliced (q : Query) : Bool :=
  q.limit.isNone || q.offset.isNone

/-- `Query._clone()`: a fresh `Query(self.model_class)` whose filters,
excludes, order fields, iterable class, limit and offset are copied;
the clone's result cache and cached count stay `None`. -/
def Query.clone (q : Query) : Query :=
  { Query.make q.model_class with
    filters := q.filters
    excludes := q.excludes
    order_fields := q.order_fields
    iterable_class := q.iterable_class
    limit := q.limit
    offset := q.offset }

def msgNoneSub : String := "unsupported operand type between int and NoneType"

/-- `Query._set_limits(start, stop)`: `self._offset = start` then
`self._limit = stop - start`.  When either operand is `None` the
subtraction raises `TypeError` (the offset assignment to the clone is then
unobservable, as the clone is discarded). -/
def Query.set_limits (q : Query) (start stop : Option Int) :
    Except PyError Query :=
  match start, stop with
  | some a, some b => .ok { q with offset := some a, limit := some (b - a) }
  | _, _ => .error (.typeError msgNoneSub)

def msgNoResource : String := "ModelIterable object has no attribute _resource"

/-- `Query._fetch_cache()`: a no-op when the cache exists; otherwise
`_query_iterator()` builds `self._iterable_class(self)` and iterates it,
and `BaseIterable.__iter__` immediately evaluates `self._resource.list(...)`
on the iterable — whose only attribute is `query` — so the lookup raises
`AttributeError` before any remote request exists. -/
def Query.fetch_cache (q : Query) : Except PyError Query :=
  match q.result_cache with
  | some _ => .ok q
  | none => .error (.attributeError msgNoResource)

/-- `list(q)` / `iter(q)`: fetch the cache, then the cached rows. -/
def Query.toList (q : Query) : Except PyError (List Instance) :=
  match q.fetch_cache with
  | .ok q2 => .ok (q2.result_cache.getD [])
  | .error e => .error e

/-- The value `Query.filter` / `exclude` / `order_by` return: either a
clone, or — when the (inverted) guard fires — an `AttributeError`
INSTANCE returned as an ordinary value, not raised. -/
inductive FilterResult where
  | query (q : Query)
  | attrError (msg : String)
deriving DecidableEq, Repr

def msgCannotFilter : String := "Cannot filter a sliced Query"

def msgCannotReorder : String := "Cannot re-order a sliced Query"

/-- `Query.filter(**kwargs)`: if `is_sliced`, return (not raise) an
`AttributeError`; otherwise clone and merge `kwargs` into the clone's
filter dict. -/
def Query.filter (q : Query) (kwargs : Dict) : FilterResult :=
  if q.is_sliced then .attrError msgCannotFilter
  else
    let c := q.clone
    .query { c with filters := Dict.update c.filters kwargs }

/-- `Query.exclude(**kwargs)`: same guard (and same message) as `filter`,
merging into the exclude dict. -/
def Query.exclude (q : Query) (kwargs : Dict) : FilterResult :=
  if q.is_sliced then .attrError msgCannotFilter
  else
    let c := q.clone
    .query { c with excludes := Dict.update c.excludes kwargs }

/-- `Query.order_by(*fields)`: same guard, replacing the order fields. -/
def Query.order_by (q : Query) (fields : List String) : FilterResult :=
  if q.is_sliced then .attrError msgCannotReorder
  else
    let c := q.clone
    .query { c with order_fields := fields }

def msgNegativeIndex : String := "Negative indexing is not supported."

def msgIndexRange : String := "list index out of range"

/-- `Query.__getitem__(k)` with an integer key: reject negatives, index a
cached result directly, else clone with `_set_limits(k, k + 1)` and force
materialization — which raises `AttributeError` (see `fetch_cache`) before
any fetch, so the single element is never returned. -/
def Query.getitemInt (q : Query) (k : Int) : Except PyError Instance :=
  if k < 0 then .error (.assertionError msgNegativeIndex)
  else
    match q.result_cache with
    | some xs =>
      match xs.get? k.toNat with
      | some x => .ok x
      | none => .error (.indexError msgIndexRange)
    | none =>
      match q.clone.set_limits (some k) (some (k + 1)) with
      | .error e => .error e
      | .ok c =>
        match c.fetch_cache with
        | .error e => .error e
        | .ok c2 =>
          match c2.result_cache.getD [] with
          | [] => .error (.indexError msgIndexRange)
          | x :: _ => .ok x

/-- Python list slicing `xs[a:b]` for non-negative (or absent) bounds and
no step, clamped to the list. -/
def pyListSliceNN (xs : List Instance) (start stop : Option Int) :
    List Instance :=
  ((xs.take (stop.getD xs.length).toNat).drop (start.getD 0).toNat)

/-- `Query.__getitem__(k)` with a no-step slice key: reject negative
bounds, slice a cached result directly (`inr`), else clone,
`_set_limits(start, stop)` — a `TypeError` when a bound is absent — and,
since `k.step` is falsy, return the still-lazy clone (`inl`), with no
fetch. -/
def Query.getitemSlice (q : Query) (start stop : Option Int) :
    Except PyError (Query ⊕ List Instance) :=
  if (start.getD 0) < 0 ∨ (stop.getD 0) < 0 then
    .error (.assertionError msgNegativeIndex)
  else
    match q.result_cache with
    | some xs => .ok (.inr (pyListSliceNN xs start stop))
    | none =>
      match q.clone.set_limits start stop with
      | .error e => .error e
      | .ok c => .ok (.inl c)

def msgErrNotIterable : String := "AttributeError object is not iterable"

/-- `Query.get(**kwargs)`: `clone = self.filter(**kwargs)` — when the
guard fired, `clone` is an `AttributeError` instance and `list(clone)`
raises `TypeError`; otherwise `list(clone)` materializes the clone (which
raises, see `fetch_cache`, since a clone never carries a cache) and the
one/zero/many analysis of the row count follows. -/
def Query.get (q : Query) (kwargs : Dict) : Except PyError Instance :=
  match q.filter kwargs with
  | .attrError _ => .error (.typeError msgErrNotIterable)
  | .query clone =>
    match clone.toList with
    | .error e => .error e
    | .ok results =>
      match results with
      | [x] => .ok x
      | [] =>
        match q.model_class with
        | none => .error (.attributeError "NoneType has no attribute DoesNotExist")
        | some mc => .error (.doesNotExist mc)
      | _ => .error (.multipleObjectsReturned results.length)

def msgQueryNoResource : String := "Query object has no attribute _resource"

/-- `Query.count()`: return the cached `_count` untouched when present (no
resource access on that path); on a miss the code evaluates
`self._resource` — an attribute `Query.__init__` never assigns — so
`AttributeError` is raised before the count-only request is built or
sent. -/
def Query.count (q : Query) : Except PyError (Nat × Query) :=
  match q.countCache with
  | some n => .ok (n, q)
  | none => .error (.attributeError msgQueryNoResource)

/-- The argument record of the `self._resource.list(...)` call expression
inside `Query.count` (source lines 227–235): first positional argument
`self.model_class`, keyword arguments `filters`, `excludes`,
`order_by=None`, `limit=0`, `offset=self._offset`, `count_only=True`, and
no field projection.  At runtime the receiver lookup `self._resource`
raises first, so this request is never evaluated or sent; the record
captures what the written call would carry. -/
structure CountRequest where
  model_class : Option String
  filters : Dict
  excludes : Dict
  order_by : Option (List String)
  limit : Nat
  offset : Option Int
  count_only : Bool
deriving DecidableEq, Repr

def Query.countRequest (q : Query) : CountRequest :=
  { model_class := q.model_class
    filters := q.filters
    excludes := q.excludes
    order_by := none
    limit := 0
    offset := q.offset
    count_only := true }

/-- The Remote Resource (external contract), restricted to the endpoints
the reachable code exercises: a pure response function per bulk endpoint.
`bulk_create` echoes created records; `bulk_update_patch` answers patches
with updated records in no guaranteed order. -/
structure Resource where
  bulk_create : List Dict → List Dict
  bulk_update_patch : List Dict → List Dict

/-- `Manager.__init__(self, client_resource, model_class, unique_field="pk")`.
The bound Model class is identified by its name (all this core uses of it
is `isinstance`, `construct` and `__name__`). -/
structure Manager where
  resource : Resource
  model : String
  unique_field : String

/-- `Manager.to_dict(instance) = instance.dict()`: the instance's raw
field mapping (external Model contract). -/
def Manager.to_dict (_m : Manager) (obj : Instance) : Dict :=
  obj.data

/-- `Manager.from_dict(data) = self._model.construct(**data)`: a freshly
constructed instance of the bound Model from a raw mapping. -/
def Manager.from_dict (m : Manager) (data : Dict) : Instance :=
  { cls := m.model, data := data }

def msgManagerKw : String :=
  "Query.init got an unexpected keyword argument manager"

/-- The call `Query(manager=self)` appearing in `Manager.all`,
`Manager.filter` and `Manager.get`: `Query.__init__` accepts only the
keyword `model_class`, so the keyword `manager` raises `TypeError` before
any `Query` exists. -/
def queryFromManagerKw (_m : Manager) : Except PyError Query :=
  .error (.typeError msgManagerKw)

/-- `Manager.all() = Query(manager=self)`. -/
def Manager.all (m : Manager) : Except PyError Query :=
  queryFromManagerKw m

/-- `Manager.filter(**kwargs) = Query(manager=self).filter(**kwargs)`. -/
def Manager.filter (m : Manager) (kwargs : Dict) :
    Except PyError FilterResult :=
  match queryFromManagerKw m with
  | .error e => .error e
  | .ok q => .ok (q.filter kwargs)

/-- `Manager.get(**kwargs) = Query(manager=self).get(**kwargs)`. -/
def Manager.get (m : Manager) (kwargs : Dict) : Except PyError Instance :=
  match queryFromManagerKw m with
  | .error e => .error e
  | .ok q => q.get kwargs

/-- A Python argument that is either an actual list of Model instances or
some other object (whose description is irrelevant beyond not being a
list), for `bulk_create`'s `isinstance(instances, list)` check. -/
inductive PyArg where
  | pylist (xs : List Instance)
  | nonList (descr : String)
deriving DecidableEq, Repr

def msgBulkCreateType (model : String) : String :=
  "instances must be a list of " ++ model ++ " instances"

def msgBulkCreateAssert (model : String) : String :=
  "bulk_create requires all items to be instances of " ++ model

/-- `Manager.bulk_create(instances)`: `TypeError` for a non-list;
`AssertionError` when an element is not an instance of the bound Model;
otherwise serialize each instance, issue one remote bulk-create call with
the serialized list, and deserialize the echoed records in response order.
The second component is the call log: the payload of each remote
bulk-create call issued. -/
def Manager.bulk_create (m : Manager) (instances : PyArg) :
    Except PyError (List Instance) × List (List Dict) :=
  match instances with
  | .nonList _ => (.error (.typeError (msgBulkCreateType m.model)), [])
  | .pylist xs =>
    if xs.all (fun obj => obj.cls = m.model) then
      let data_list := xs.map m.to_dict
      (.ok ((m.resource.bulk_create data_list).map m.from_dict), [data_list])
    else
      (.error (.assertionError (msgBulkCreateAssert m.model)), [])

/-- `{key: d[key] for key in update_fields}`: the per-item patch, raising
`KeyError` at the first update field absent from the serialized
instance. -/
def buildPatch (update_fields : List String) (d : Dict) :
    Except PyError Dict :=
  match update_fields with
  | [] => .ok []
  | k :: ks =>
    match Dict.get? d k with
    | none => .error (.keyError k)
    | some v =>
      match buildPatch ks d with
      | .error e => .error e
      | .ok rest => .ok ((k, v) :: rest)

/-- Map a fallible function over a list, stopping at the first error
(Python's left-to-right comprehension order). -/
def mapE {α β : Type} (f : α → Except PyError β) : List α → Except PyError (List β)
  | [] => .ok []
  | x :: xs =>
    match f x with
    | .error e => .error e
    | .ok y =>
      match mapE f xs with
      | .error e => .error e
      | .ok ys => .ok (y :: ys)

/-- A Python dict keyed by (integer) unique-field values. -/
abbrev RespMap := List (Int × Dict)

def RespMap.get? : RespMap → Int → Option Dict
  | [], _ => none
  | (k1, v1) :: rest, k => if k1 = k then some v1 else RespMap.get? rest k

/-- Dict assignment `m[k] = v`: replace in place or append. -/
def RespMap.insert1 : RespMap → Int → Dict → RespMap
  | [], k, v => [(k, v)]
  | (k1, v1) :: rest, k, v =>
    if k1 = k then (k, v) :: rest else (k1, v1) :: RespMap.insert1 rest k v

/-- `{item[self._unique_field]: item for item in response_data}`: build the
response map left to right (a later duplicate unique value overrides an
earlier one), raising `KeyError` when a response record lacks the unique
field. -/
def buildRespMapAux (uf : String) (acc : RespMap) :
    List Dict → Except PyError RespMap
  | [] => .ok acc
  | item :: rest =>
    match Dict.get? item uf with
    | none => .error (.keyError uf)
    | some pk => buildRespMapAux uf (RespMap.insert1 acc pk item) rest

def buildRespMap (uf : String) (items : List Dict) : Except PyError RespMap :=
  buildRespMapAux uf [] items

def msgNoAttr (uf : String) : String :=
  "object has no attribute " ++ uf

/-- The rejoin loop of `bulk_update`: for each instance, in caller order,
`pk = getattr(obj, unique_field)` (an `AttributeError` when the instance
lacks the field) and `response_map[pk]` (a `KeyError` when no response
record carried that unique value), replacing the instance with a freshly
constructed Model from the matched record.  The result is the post-state
of the caller's `instances` list (the Python code mutates it in place and
returns `None`). -/
def rejoin (m : Manager) (rmap : RespMap) :
    List Instance → Except PyError (List Instance)
  | [] => .ok []
  | obj :: rest =>
    match Dict.get? obj.data m.unique_field with
    | none => .error (.attributeError (msgNoAttr m.unique_field))
    | some pk =>
      match RespMap.get? rmap pk with
      | none => .error (.keyError (toString pk))
      | some record =>
        match rejoin m rmap rest with
        | .error e => .error e
        | .ok tail => .ok (m.from_dict record :: tail)

/-- `Manager.bulk_update(instances, update_fields)`: serialize, build the
patches (only the update fields), issue one remote bulk-update call,
rebuild the response map by unique-field value, and replace each instance
in place, in caller order, by the record matching its own unique value.
First component: the post-state of `instances` (the Python call itself
returns `None`), or the raised error; second component: the call log, the
payload of each remote bulk-update call issued. -/
def Manager.bulk_update (m : Manager) (instances : List Instance)
    (update_fields : List String) :
    Except PyError (List Instance) × List (List Dict) :=
  let data_list := instances.map m.to_dict
  match mapE (buildPatch update_fields) data_list with
  | .error e => (.error e, [])
  | .ok patch_list =>
    let response_data := m.resource.bulk_update_patch patch_list
    match buildRespMap m.unique_field response_data with
    | .error e => (.error e, [patch_list])
    | .ok response_map =>
      match rejoin m response_map instances with
      | .error e => (.error e, [patch_list])
      | .ok post => (.ok post, [patch_list])

/-! ### Concrete fixtures -/

/-- An echoing remote resource stub. -/
def rEx : Resource :=
  { bulk_create := fun ds => ds, bulk_update_patch := fun ps => ps }

def mEx : Manager := { resource := rEx, model := "Job", unique_field := "pk" }

/-- A fresh `Query` over a Model named Job. -/
def qJob : Query := Query.make (some "Job")

/-- A `Query` with both limit and offset set: sliced in the spec's sense. -/
def qSliced : Query := { qJob with limit := some 1, offset := some 2 }

def iA : Instance := { cls := "Job", data := [("pk", 1), ("name", 10)] }

def iB : Instance := { cls := "Job", data := [("pk", 2), ("name", 20)] }

/-- A `Query` whose result cache is populated (state the claims describe;
no code path of this source can populate it, since materialization always
raises). -/
def qCached : Query := { qJob with result_cache := some [iA, iB] }

def qCounted : Query := { qJob with countCache := some 7 }

def qOff : Query := { qJob with offset := some 4, filters := [("state", 1)] }

/-! ### Claim theorems -/

/-- C1: the claim says filter/exclude/order_by on a Sliced query (limit
and offset both set) fail with FrozenQuery surfaced to the caller, and
succeed with a clone otherwise.  The code does the opposite on both
counts: `is_sliced` is `_limit is None or _offset is None` (the negation
of Sliced), so a query with both bounds set filters fine, a fresh query
is rejected — and the rejection RETURNS the `AttributeError` value
instead of raising it. -/
theorem C1_frozen_query_guard_inverted :
    (qJob.is_sliced = true) ∧ (qSliced.is_sliced = false) ∧
    (∃ c, qSliced.filter [("x", 1)] = .query c) ∧
    (∃ c, qSliced.exclude [("x", 1)] = .query c) ∧
    (∃ c, qSliced.order_by ["f"] = .query c) ∧
    (qJob.filter [("x", 1)] = .attrError msgCannotFilter) ∧
    (qJob.exclude [("x", 1)] = .attrError msgCannotFilter) ∧
    (qJob.order_by ["f"] = .attrError msgCannotReorder) :=
  ⟨rfl, rfl, ⟨_, rfl⟩, ⟨_, rfl⟩, ⟨_, rfl⟩, rfl, rfl, rfl⟩

/-- C2: the claim says `Manager.all()` returns a new unconstrained Query.
In the code `Manager.all` is `Query(manager=self)` while `Query.__init__`
accepts only `model_class`, so every call raises `TypeError`; the
unconstrained state the claim describes is what `Query.__init__` itself
builds. -/
theorem C2_manager_all_crashes :
    (∀ m : Manager, Manager.all m = .error (.typeError msgManagerKw)) ∧
    (∀ mc, (Query.make mc).filters = [] ∧ (Query.make mc).excludes = [] ∧
      (Query.make mc).order_fields = [] ∧ (Query.make mc).limit = none ∧
      (Query.make mc).offset = none ∧ (Query.make mc).result_cache = none ∧
      (Query.make mc).countCache = none) :=
  ⟨fun _ => rfl, fun _ => ⟨rfl, rfl, rfl, rfl, rfl, rfl, rfl⟩⟩

/-- C3 counterexample: on a fresh (unsliced) Query, `filter` does not
return a clone at all — it returns an `AttributeError` value — so the
claim's universally quantified merge property fails. -/
theorem C3_counterexample :
    (qJob.filter [("x", 1)] = .attrError msgCannotFilter) ∧
    ∀ c, qJob.filter [("x", 1)] ≠ .query c :=
  ⟨rfl, fun _ h => FilterResult.noConfusion h⟩

/-- C3 amended: on the Queries where `filter` does return a clone — those
with limit and offset both set, because the guard is inverted — the clone
carries the receiver's filter map updated with the new predicates (new
keys overriding), every other piece of builder state copied, and no result
cache and no cached count; the receiver itself is unchanged (the embedding
is functional, and the code only mutates the clone's own copied dict). -/
theorem C3_filter_merge_on_clone (q : Query) (p : Dict) (l o : Int)
    (hl : q.limit = some l) (ho : q.offset = some o) :
    ∃ c, q.filter p = .query c ∧
      c.filters = Dict.update q.filters p ∧
      c.excludes = q.excludes ∧ c.order_fields = q.order_fields ∧
      c.limit = q.limit ∧ c.offset = q.offset ∧
      c.model_class = q.model_class ∧ c.iterable_class = q.iterable_class ∧
      c.result_cache = none ∧ c.countCache = none := by
  have hs : q.is_sliced = false := by
    simp [Query.is_sliced, hl, ho]
  refine ⟨{ q.clone with filters := Dict.update q.clone.filters p },
    ?_, rfl, rfl, rfl, rfl, rfl, rfl, rfl, rfl, rfl⟩
  simp [Query.filter, hs]

def qC3 : Query := { Query.make (some "Job") with limit := some 3, offset := some 0 }

theorem C3_witness :
    qC3.limit = some 3 ∧ qC3.offset = some 0 ∧
    ∃ c, qC3.filter [("x", 1)] = .query c ∧
      c.filters = Dict.update qC3.filters [("x", 1)] ∧
      c.excludes = qC3.excludes ∧ c.order_fields = qC3.order_fields ∧
      c.limit = qC3.limit ∧ c.offset = qC3.offset ∧
      c.model_class = qC3.model_class ∧ c.iterable_class = qC3.iterable_class ∧
      c.result_cache = none ∧ c.countCache = none :=
  ⟨rfl, rfl, C3_filter_merge_on_clone qC3 [("x", 1)] 3 0 rfl rfl⟩

/-- C4: slicing with both bounds does build the lazy clone with
`offset = start`, `limit = stop - start` and no fetch, but an absent bound
raises `TypeError` (`_set_limits` subtracts unconditionally) instead of
staying unbounded, and consuming the `q[2:5]` clone raises
`AttributeError` before any remote list call can be issued. -/
theorem C4_slice_semantics :
    (qJob.getitemSlice none (some 5) = .error (.typeError msgNoneSub)) ∧
    (qJob.getitemSlice (some 2) none = .error (.typeError msgNoneSub)) ∧
    (qJob.getitemSlice none none = .error (.typeError msgNoneSub)) ∧
    (∃ c, qJob.getitemSlice (some 2) (some 5) = .ok (.inl c) ∧
      c.offset = some 2 ∧ c.limit = some 3 ∧ c.result_cache = none ∧
      c.filters = qJob.filters ∧
      c.toList = .error (.attributeError msgNoResource)) := by
  refine ⟨rfl, rfl, rfl, ⟨_, rfl, rfl, ?_, rfl, rfl, rfl⟩⟩
  decide

/-- C5: with a populated cache, an integer index reads the cache directly
(and an out-of-range index raises `IndexError`, a negative one
`AssertionError`); without a cache the clone is given `offset = k`,
`limit = 1`, but the forced materialization raises `AttributeError`
(`BaseIterable` has no `_resource`) before any fetch, so the single
element is never returned. -/
theorem C5_int_index :
    (qJob.getitemInt 3 = .error (.attributeError msgNoResource)) ∧
    (qCached.getitemInt 1 = .ok iB) ∧
    (qCached.getitemInt 5 = .error (.indexError msgIndexRange)) ∧
    (qCached.getitemInt (-1) = .error (.assertionError msgNegativeIndex)) :=
  ⟨rfl, rfl, rfl, rfl⟩

/-- C6: `get` can never perform the one-row analysis.  `Manager.get`
raises `TypeError` constructing `Query(manager=self)`; `Query.get` on a
fresh query calls `filter`, receives the returned `AttributeError` value
and raises `TypeError` iterating it; on a both-bounds query the filter
succeeds but materializing the clone raises `AttributeError`.  The
`DoesNotExist` / `MultipleObjectsReturned` branches are unreachable. -/
theorem C6_get_never_counts_rows :
    (∀ m : Manager, Manager.get m [("x", 1)] = .error (.typeError msgManagerKw)) ∧
    (qJob.get [("x", 1)] = .error (.typeError msgErrNotIterable)) ∧
    (qSliced.get [("x", 1)] = .error (.attributeError msgNoResource)) :=
  ⟨fun _ => rfl, rfl, rfl⟩

/-- C7: when a count is cached, `count()` returns it untouched — the
cache-hit path never reaches a resource — but the cache-miss path raises
`AttributeError` (`Query` has no `_resource` attribute), so the dedicated
count-only request is never issued. -/
theorem C7_count_cache :
    (∀ q : Query, ∀ n : Nat, q.countCache = some n → q.count = .ok (n, q)) ∧
    (qJob.count = .error (.attributeError msgQueryNoResource)) ∧
    (qCounted.count = .ok (7, qCounted)) := by
  refine ⟨?_, rfl, rfl⟩
  intro q n h
  unfold Query.count
  rw [h]

/-- C10: the call expression written in `Query.count` does forward the
query's offset unchanged (with `limit=0`, no ordering, no projection,
`count_only` set), but at runtime the `self._resource` lookup raises
`AttributeError` first, so no count request — with or without the offset —
is ever issued. -/
theorem C10_count_request_offset :
    (∀ q : Query, (q.countRequest).offset = q.offset ∧
      (q.countRequest).limit = 0 ∧ (q.countRequest).order_by = none ∧
      (q.countRequest).count_only = true ∧
      (q.countRequest).filters = q.filters ∧
      (q.countRequest).excludes = q.excludes) ∧
    (qOff.countRequest.offset = some 4) ∧
    (qOff.count = .error (.attributeError msgQueryNoResource)) :=
  ⟨fun _ => ⟨rfl, rfl, rfl, rfl, rfl, rfl⟩, rfl, rfl⟩

/-- C9 counterexample: an element that is not an instance of the bound
Model makes `bulk_create` fail with `AssertionError` — the `assert`
statement on the source's line 30 — not with the type error the claim
names (the `TypeError` is reserved for a non-list argument). -/
def iOther : Instance := { cls := "App", data := [("pk", 9)] }

theorem C9_counterexample :
    (Manager.bulk_create mEx (.pylist [iOther]) =
      (.error (.assertionError (msgBulkCreateAssert "Job")), [])) ∧
    ∀ s, (Manager.bulk_create mEx (.pylist [iOther])).1 ≠
      .error (.typeError s) := by
  refine ⟨rfl, ?_⟩
  intro s h
  rw [show (Manager.bulk_create mEx (.pylist [iOther])).1 =
      .error (.assertionError (msgBulkCreateAssert "Job")) from rfl] at h
  injection h with h2
  exact PyError.noConfusion h2

/-- C9 amended: `bulk_create` fails with `TypeError` when `instances` is
not a list, with `AssertionError` when some element is not an instance of
the bound Model, and otherwise issues exactly one remote bulk-create call
carrying the serialized instances and returns fresh instances of the
bound Model deserialized from the echoed records in response order (the
inputs, which the code only reads, are untouched). -/
theorem C9_bulk_create_validation (m : Manager) (xs : List Instance) :
    (∀ d, Manager.bulk_create m (.nonList d) =
      (.error (.typeError (msgBulkCreateType m.model)), [])) ∧
    ((∀ obj ∈ xs, obj.cls = m.model) →
      Manager.bulk_create m (.pylist xs) =
        (.ok ((m.resource.bulk_create (xs.map m.to_dict)).map m.from_dict),
          [xs.map m.to_dict]) ∧
      ∀ ys, (Manager.bulk_create m (.pylist xs)).1 = .ok ys →
        ∀ y ∈ ys, y.cls = m.model) ∧
    ((¬ ∀ obj ∈ xs, obj.cls = m.model) →
      Manager.bulk_create m (.pylist xs) =
        (.error (.assertionError (msgBulkCreateAssert m.model)), [])) := by
  refine ⟨fun _ => rfl, ?_, ?_⟩
  · intro h
    have hb : (xs.all fun obj => obj.cls = m.model) = true := by
      simp only [List.all_eq_true, decide_eq_true_eq]
      exact h
    have heq : Manager.bulk_create m (.pylist xs) =
        (.ok ((m.resource.bulk_create (xs.map m.to_dict)).map m.from_dict),
          [xs.map m.to_dict]) := by
      simp [Manager.bulk_create, hb]
    refine ⟨heq, ?_⟩
    intro ys hys y hy
    rw [heq] at hys
    have : ys = (m.resource.bulk_create (xs.map m.to_dict)).map m.from_dict := by
      exact (Except.ok.inj hys.symm)
    subst this
    obtain ⟨r, _, hr⟩ := List.mem_map.mp hy
    rw [← hr]
    rfl
  · intro h
    have hb : (xs.all fun obj => obj.cls = m.model) = false := by
      rw [Bool.eq_false_iff]
      intro hall
      exact h fun obj hobj =>
        of_decide_eq_true (List.all_eq_true.mp hall obj hobj)
    simp [Manager.bulk_create, hb]

/-! ### Support lemmas for the bulk-update rejoin -/

theorem buildPatch_ok (d : Dict) :
    ∀ ks : List String, (∀ k ∈ ks, (Dict.get? d k).isSome) →
      buildPatch ks d = .ok (ks.map fun k => (k, (Dict.get? d k).getD 0)) := by
  intro ks
  induction ks with
  | nil => intro _; rfl
  | cons k ks ih =>
    intro h
    obtain ⟨v, hv⟩ := Option.isSome_iff_exists.mp (h k (List.mem_cons_self k ks))
    have hrest := ih (fun k2 hk2 => h k2 (List.mem_cons_of_mem _ hk2))
    simp [buildPatch, hv, hrest]

theorem mapE_ok {α β : Type} (f : α → Except PyError β) (g : α → β) :
    ∀ xs : List α, (∀ x ∈ xs, f x = .ok (g x)) →
      mapE f xs = .ok (xs.map g) := by
  intro xs
  induction xs with
  | nil => intro _; rfl
  | cons x xs ih =>
    intro h
    have hx := h x (List.mem_cons_self x xs)
    have hrest := ih (fun x2 hx2 => h x2 (List.mem_cons_of_mem _ hx2))
    simp [mapE, hx, hrest]

theorem RespMap.get?_insert1_self (m : RespMap) (k : Int) (v : Dict) :
    RespMap.get? (RespMap.insert1 m k v) k = some v := by
  induction m with
  | nil => simp [RespMap.insert1, RespMap.get?]
  | cons kv rest ih =>
    obtain ⟨k1, v1⟩ := kv
    by_cases hk : k1 = k
    · simp [RespMap.insert1, RespMap.get?, hk]
    · simp [RespMap.insert1, RespMap.get?, hk, ih]

theorem RespMap.get?_insert1_ne (m : RespMap) (k k2 : Int) (v : Dict)
    (h : k2 ≠ k) :
    RespMap.get? (RespMap.insert1 m k v) k2 = RespMap.get? m k2 := by
  have hne : ¬ (k = k2) := fun he => h he.symm
  induction m with
  | nil => simp [RespMap.insert1, RespMap.get?, hne]
  | cons kv rest ih =>
    obtain ⟨k1, v1⟩ := kv
    by_cases hk : k1 = k
    · rw [hk]
      simp [RespMap.insert1, RespMap.get?, hne]
    · simp [RespMap.insert1, RespMap.get?, hk, ih]

theorem RespMap.isSome_get?_insert1 (m : RespMap) (k k2 : Int) (v : Dict)
    (h : (RespMap.get? m k2).isSome) :
    (RespMap.get? (RespMap.insert1 m k v) k2).isSome := by
  by_cases hk : k2 = k
  · subst hk
    rw [RespMap.get?_insert1_self]
    rfl
  · rw [RespMap.get?_insert1_ne m k k2 v hk]
    exact h

theorem RespMap.mem_insert1 (m : RespMap) (k : Int) (v : Dict) :
    ∀ x ∈ RespMap.insert1 m k v, x = (k, v) ∨ x ∈ m := by
  induction m with
  | nil => simp [RespMap.insert1]
  | cons kv rest ih =>
    obtain ⟨k1, v1⟩ := kv
    intro x hx
    by_cases hk : k1 = k
    · simp only [RespMap.insert1, hk, if_pos rfl] at hx
      rcases List.mem_cons.mp hx with h1 | h2
      · exact Or.inl h1
      · exact Or.inr (List.mem_cons_of_mem _ h2)
    · simp only [RespMap.insert1, if_neg hk] at hx
      rcases List.mem_cons.mp hx with h1 | h2
      · exact Or.inr (h1 ▸ List.mem_cons_self _ _)
      · rcases ih x h2 with h3 | h4
        · exact Or.inl h3
        · exact Or.inr (List.mem_cons_of_mem _ h4)

theorem RespMap.get?_mem (m : RespMap) (k : Int) (v : Dict)
    (h : RespMap.get? m k = some v) : (k, v) ∈ m := by
  induction m with
  | nil => exact absurd h (by simp [RespMap.get?])
  | cons kv rest ih =>
    obtain ⟨k1, v1⟩ := kv
    by_cases hk : k1 = k
    · subst hk
      have hv : v1 = v := by simpa [RespMap.get?] using h
      subst hv
      exact List.mem_cons_self _ _
    · simp only [RespMap.get?, if_neg hk] at h
      exact List.mem_cons_of_mem _ (ih h)

/-- Joint specification of the response-map comprehension: it succeeds
when every response record carries the unique field; every entry of the
result pairs a response record with its own unique value; and every
unique value occurring in the input is a key of the result. -/
theorem buildRespMapAux_spec (uf : String) :
    ∀ (items : List Dict) (acc : RespMap),
      (∀ r ∈ items, (Dict.get? r uf).isSome) →
      ∃ rmap, buildRespMapAux uf acc items = .ok rmap ∧
        (∀ x ∈ rmap, x ∈ acc ∨ (x.2 ∈ items ∧ Dict.get? x.2 uf = some x.1)) ∧
        (∀ k, (RespMap.get? acc k).isSome → (RespMap.get? rmap k).isSome) ∧
        (∀ r ∈ items, ∀ pk, Dict.get? r uf = some pk →
          (RespMap.get? rmap pk).isSome) := by
  intro items
  induction items with
  | nil =>
    intro acc _
    exact ⟨acc, rfl, fun x hx => Or.inl hx, fun _ hk => hk,
      fun r hr => absurd hr (List.not_mem_nil r)⟩
  | cons item rest ih =>
    intro acc hAll
    obtain ⟨pk, hpk⟩ :=
      Option.isSome_iff_exists.mp (hAll item (List.mem_cons_self item rest))
    obtain ⟨rmap, heq, hprov, hdom, hcov⟩ :=
      ih (RespMap.insert1 acc pk item)
        (fun r hr => hAll r (List.mem_cons_of_mem _ hr))
    refine ⟨rmap, ?_, ?_, ?_, ?_⟩
    · simp [buildRespMapAux, hpk, heq]
    · intro x hx
      rcases hprov x hx with hacc | hxrest
      · rcases RespMap.mem_insert1 acc pk item x hacc with hxeq | hxacc
        · subst hxeq
          exact Or.inr ⟨List.mem_cons_self item rest, hpk⟩
        · exact Or.inl hxacc
      · exact Or.inr ⟨List.mem_cons_of_mem _ hxrest.1, hxrest.2⟩
    · intro k hk
      exact hdom k (RespMap.isSome_get?_insert1 acc pk k item hk)
    · intro r hr pk2 hpk2
      rcases List.mem_cons.mp hr with hr1 | hr2
      · subst hr1
        have hpkeq : pk2 = pk := by
          rw [hpk] at hpk2
          exact (Option.some.inj hpk2).symm
        subst hpkeq
        refine hdom pk2 ?_
        rw [RespMap.get?_insert1_self]
        rfl
      · exact hcov r hr2 pk2 hpk2

theorem rejoin_ok (m : Manager) (rmap : RespMap) :
    ∀ instances : List Instance,
      (∀ obj ∈ instances, ∃ pk,
        Dict.get? obj.data m.unique_field = some pk ∧
        (RespMap.get? rmap pk).isSome) →
      ∃ ys, rejoin m rmap instances = .ok ys ∧
        List.Forall₂ (fun obj y => ∃ pk v,
          Dict.get? obj.data m.unique_field = some pk ∧
          RespMap.get? rmap pk = some v ∧ y = m.from_dict v) instances ys := by
  intro instances
  induction instances with
  | nil => intro _; exact ⟨[], rfl, List.Forall₂.nil⟩
  | cons obj rest ih =>
    intro h
    obtain ⟨pk, hpk, hsome⟩ := h obj (List.mem_cons_self obj rest)
    obtain ⟨v, hv⟩ := Option.isSome_iff_exists.mp hsome
    obtain ⟨ys, heq, hfa⟩ := ih (fun o ho => h o (List.mem_cons_of_mem _ ho))
    refine ⟨m.from_dict v :: ys, ?_, List.Forall₂.cons ⟨pk, v, hpk, hv, rfl⟩ hfa⟩
    simp [rejoin, hpk, hv, heq]

theorem map_fst_pairs (f : String → Int) :
    ∀ ks : List String, List.map Prod.fst (ks.map fun k => (k, f k)) = ks := by
  intro ks
  induction ks with
  | nil => rfl
  | cons k ks ih => simp only [List.map_cons, ih]

/-- The patch list `bulk_update` provably sends when every update field is
present on every serialized instance: one patch per instance, in caller
order, binding exactly the update fields (and nothing else). -/
def patchesOf (_m : Manager) (instances : List Instance)
    (ufields : List String) : List Dict :=
  instances.map fun obj => ufields.map fun k => (k, (Dict.get? obj.data k).getD 0)

/-- C8 amended: `bulk_update` sends per-item patches containing only the
update fields — the unique field is NOT added (it appears only when it is
itself an update field) — in exactly one remote bulk-update call; the
response, in whatever order, is rejoined per instance by that instance's
own unique-field value, and each instance is replaced, in caller order,
by a freshly constructed Model from its matching record. -/
theorem C8_bulk_update_rejoin (m : Manager) (instances : List Instance)
    (ufields : List String)
    (h1 : ∀ obj ∈ instances, ∀ k ∈ ufields, (Dict.get? obj.data k).isSome)
    (h2 : ∀ obj ∈ instances, (Dict.get? obj.data m.unique_field).isSome)
    (h3 : ∀ r ∈ m.resource.bulk_update_patch (patchesOf m instances ufields),
      (Dict.get? r m.unique_field).isSome)
    (h4 : ∀ obj ∈ instances,
      ∃ r ∈ m.resource.bulk_update_patch (patchesOf m instances ufields),
        Dict.get? r m.unique_field = Dict.get? obj.data m.unique_field) :
    ((m.bulk_update instances ufields).2 = [patchesOf m instances ufields]) ∧
    (∀ call ∈ (m.bulk_update instances ufields).2, ∀ p ∈ call,
      p.map Prod.fst = ufields) ∧
    (∃ ys, (m.bulk_update instances ufields).1 = .ok ys ∧
      List.Forall₂ (fun obj y => ∃ r,
        r ∈ m.resource.bulk_update_patch (patchesOf m instances ufields) ∧
        Dict.get? r m.unique_field = Dict.get? obj.data m.unique_field ∧
        y = m.from_dict r) instances ys) := by
  have hpresence : ∀ d ∈ instances.map m.to_dict,
      buildPatch ufields d =
        .ok (ufields.map fun k => (k, (Dict.get? d k).getD 0)) := by
    intro d hd
    obtain ⟨obj, hobj, hde⟩ := List.mem_map.mp hd
    refine buildPatch_ok d ufields ?_
    intro k hk
    rw [← hde]
    exact h1 obj hobj k hk
  have hmapE : mapE (buildPatch ufields) (instances.map m.to_dict) =
      .ok (patchesOf m instances ufields) := by
    rw [mapE_ok (buildPatch ufields)
      (fun d => ufields.map fun k => (k, (Dict.get? d k).getD 0))
      (instances.map m.to_dict) hpresence]
    rw [List.map_map]
    rfl
  obtain ⟨rmap, hrmEq, hprov, _hdom, hcov⟩ :=
    buildRespMapAux_spec m.unique_field
      (m.resource.bulk_update_patch (patchesOf m instances ufields)) [] h3
  have hrmEq2 : buildRespMap m.unique_field
      (m.resource.bulk_update_patch (patchesOf m instances ufields)) =
      .ok rmap := hrmEq
  have hjoin : ∀ obj ∈ instances, ∃ pk,
      Dict.get? obj.data m.unique_field = some pk ∧
      (RespMap.get? rmap pk).isSome := by
    intro obj hobj
    obtain ⟨pk, hpk⟩ := Option.isSome_iff_exists.mp (h2 obj hobj)
    obtain ⟨r, hr, hruf⟩ := h4 obj hobj
    refine ⟨pk, hpk, hcov r hr pk ?_⟩
    rw [hruf, hpk]
  obtain ⟨ys, hys, hfa⟩ := rejoin_ok m rmap instances hjoin
  have hbu : m.bulk_update instances ufields =
      (.ok ys, [patchesOf m instances ufields]) := by
    simp only [Manager.bulk_update, hmapE, hrmEq2, hys]
  refine ⟨?_, ?_, ?_⟩
  · rw [hbu]
  · rw [hbu]
    intro call hcall p hp
    rw [List.mem_singleton.mp hcall] at hp
    obtain ⟨obj, _hobj, hpe⟩ := List.mem_map.mp hp
    rw [← hpe]
    exact map_fst_pairs (fun k => (Dict.get? obj.data k).getD 0) ufields
  · refine ⟨ys, by rw [hbu], ?_⟩
    refine hfa.imp ?_
    intro obj y hy
    obtain ⟨pk, v, hpk, hv, hyv⟩ := hy
    rcases hprov (pk, v) (RespMap.get?_mem rmap pk v hv) with habs | hok
    · exact absurd habs (List.not_mem_nil _)
    · exact ⟨v, hok.1, by rw [hok.2, hpk], hyv⟩

/-! C8 fixtures: a stub whose bulk-update response comes back in the
REVERSE of request order, and one whose response is missing a record. -/

def r8 : Resource :=
  { bulk_create := fun ds => ds
    bulk_update_patch := fun _ =>
      [[("pk", 2), ("name", 22)], [("pk", 1), ("name", 11)]] }

def m8 : Manager := { resource := r8, model := "Job", unique_field := "pk" }

def a8 : Instance := { cls := "Job", data := [("pk", 1), ("name", 0)] }

def b8 : Instance := { cls := "Job", data := [("pk", 2), ("name", 0)] }

def rBad : Resource :=
  { bulk_create := fun ds => ds
    bulk_update_patch := fun _ => [[("pk", 2), ("name", 22)]] }

def mBad : Manager := { resource := rBad, model := "Job", unique_field := "pk" }

theorem C8_witness :
    (∀ obj ∈ [a8, b8], ∀ k ∈ ["name"], (Dict.get? obj.data k).isSome) ∧
    (∀ obj ∈ [a8, b8], (Dict.get? obj.data m8.unique_field).isSome) ∧
    (∀ r ∈ m8.resource.bulk_update_patch (patchesOf m8 [a8, b8] ["name"]),
      (Dict.get? r m8.unique_field).isSome) ∧
    (∀ obj ∈ [a8, b8],
      ∃ r ∈ m8.resource.bulk_update_patch (patchesOf m8 [a8, b8] ["name"]),
        Dict.get? r m8.unique_field = Dict.get? obj.data m8.unique_field) ∧
    (((m8.bulk_update [a8, b8] ["name"]).2 = [patchesOf m8 [a8, b8] ["name"]]) ∧
      (∀ call ∈ (m8.bulk_update [a8, b8] ["name"]).2, ∀ p ∈ call,
        p.map Prod.fst = ["name"]) ∧
      (∃ ys, (m8.bulk_update [a8, b8] ["name"]).1 = .ok ys ∧
        List.Forall₂ (fun obj y => ∃ r,
          r ∈ m8.resource.bulk_update_patch (patchesOf m8 [a8, b8] ["name"]) ∧
          Dict.get? r m8.unique_field = Dict.get? obj.data m8.unique_field ∧
          y = m8.from_dict r) [a8, b8] ys)) ∧
    ((m8.bulk_update [a8, b8] ["name"]).1 =
      .ok [m8.from_dict [("pk", 1), ("name", 11)],
        m8.from_dict [("pk", 2), ("name", 22)]]) ∧
    ((mBad.bulk_update [a8] ["name"]).1 = .error (.keyError "1")) ∧
    ((mBad.bulk_update [a8] ["name"]).2 = [[[("name", 0)]]]) :=
  ⟨by decide, by decide, by decide, by decide,
    C8_bulk_update_rejoin m8 [a8, b8] ["name"] (by decide) (by decide)
      (by decide) (by decide),
    rfl, rfl, rfl⟩

/-- C8 counterexample: with `update_fields = {"name"}` and unique field
`"pk"`, the patches actually sent bind only `"name"` — no patch carries
the unique field, contradicting the claim that each patch contains "the
unique field plus the update_fields". -/
theorem C8_counterexample :
    ((m8.bulk_update [a8, b8] ["name"]).2 = [[[("name", 0)], [("name", 0)]]]) ∧
    (∀ call ∈ (m8.bulk_update [a8, b8] ["name"]).2, ∀ p ∈ call,
      Dict.get? p "pk" = none) :=
  ⟨rfl, by decide⟩

end Balsam
